import Mathlib

/-!
Verification development for the Cromwell HPC configuration generator
(bcbio/cwl/hpc.py).  The Python module is shallowly embedded below:
pure functions become Lean functions, Python dicts become association
lists, Python exceptions become an explicit error type threaded through
Except, and the single file write at the end of create_cromwell_config
is modelled by explicit state passing of the output-file content.
All curly braces inside the embedded template text are written with the
escapes 7b and 7d.
-/

set_option maxRecDepth 40000

namespace BcbioHpc

/-- Errors raised by the module.  unsupportedScheduler and missingQueue
are the two ValueError sites in args_to_cromwell; configParseError is a
pyhocon parse failure propagating out of load_custom_config; keyError
models a Python KeyError (missing dict key, unknown template name);
attributeError models calling startswith on a non-string; valueError
models the Python ValueError raised by percent-formatting on the
malformed placeholder in the sge template. -/
inductive CromErr where
  | unsupportedScheduler
  | missingQueue
  | configParseError
  | keyError
  | attributeError
  | valueError
deriving DecidableEq

/-- A JSON-like value as produced by json.load: the manifest document.
Mappings are association lists in document order. -/
inductive JVal where
  | str (s : String)
  | num (n : Int)
  | jbool (b : Bool)
  | jnull
  | arr (xs : List JVal)
  | obj (kvs : List (String × JVal))

/-- Character-list test: pat is a prefix of s (Python str.startswith). -/
def hasPrefixChars : List Char → List Char → Bool
  | [], _ => true
  | _ :: _, [] => false
  | a :: as, b :: bs => a == b && hasPrefixChars as bs

/-- Character-list test: pat occurs as a contiguous substring of s.
Defined through List.rec so that it evaluates iteratively in the kernel. -/
def hasInfixChars (pat : List Char) (s : List Char) : Bool :=
  List.rec pat.isEmpty (fun c rest ih => hasPrefixChars pat (c :: rest) || ih) s

/-- String-level substring test used to state containment facts about
generated configuration text. -/
def hasInfixStr (s pat : String) : Bool := hasInfixChars pat.data s.data

/-- Python s.startswith(pre). -/
def pyStartsWith (s pre : String) : Bool := hasPrefixChars pre.data s.data

/-- Python str.split(sep) for a one-character separator: split on every
occurrence, keeping empty segments; the empty string yields one empty
segment. -/
def pySplitChars (sep : Char) : List Char → List (List Char)
  | [] => [[]]
  | c :: rest =>
    if c == sep then [] :: pySplitChars sep rest
    else
      match pySplitChars sep rest with
      | [] => [[c]]
      | h :: t => (c :: h) :: t

/-- Python s.split(sep) on strings. -/
def pySplit (sep : Char) (s : String) : List String :=
  (pySplitChars sep s.data).map (fun cs => ⟨cs⟩)

/-- Worker for Python str.replace: left-to-right, non-overlapping.  The
Nat fuel argument (instantiated with the length of the string) keeps the
recursion structural so that it reduces inside the kernel. -/
def pyReplaceAux (pat repl : List Char) : Nat → List Char → List Char
  | 0, s => s
  | _, [] => []
  | fuel + 1, c :: rest =>
    if pat ≠ [] && pat.isPrefixOf (c :: rest) then
      repl ++ pyReplaceAux pat repl fuel ((c :: rest).drop pat.length)
    else
      c :: pyReplaceAux pat repl fuel rest

/-- Python s.replace(pat, repl). -/
def pyReplace (s pat repl : String) : String :=
  ⟨pyReplaceAux pat.data repl.data s.data.length s.data⟩

/-- Python s.upper() restricted to the ASCII identifiers it is applied to. -/
def pyUpper (s : String) : String := ⟨s.data.map Char.toUpper⟩

/-- Python dict assignment d[k] = v on an association list: replace the
binding in place if the key is present, append it otherwise. -/
def dictSet (d : List (String × String)) (k v : String) : List (String × String) :=
  if d.any (fun p => p.1 == k) then
    d.map (fun p => if p.1 == k then (k, v) else p)
  else d ++ [(k, v)]

/-- Python dict subscript d[k] raising KeyError when the key is absent. -/
def dictGetE (d : List (String × String)) (k : String) : Except CromErr String :=
  match List.lookup k d with
  | some v => .ok v
  | none => .error .keyError

/-- Python membership test for a key in a JSON mapping. -/
def jsonHasKey (kvs : List (String × JVal)) (k : String) : Bool :=
  kvs.any (fun p => p.1 == k)

mutual

/-- Embedding of get_file_paths: recursively collect the path entry of
every mapping that carries a class key, without descending into such a
mapping; missing path on a classed mapping is a KeyError. -/
def get_file_paths : JVal → Except CromErr (List JVal)
  | .str _ => .ok []
  | .num _ => .ok []
  | .jbool _ => .ok []
  | .jnull => .ok []
  | .arr xs => get_file_paths_list xs
  | .obj kvs =>
    if jsonHasKey kvs "class" then
      match List.lookup "path" kvs with
      | some p => .ok [p]
      | none => .error .keyError
    else get_file_paths_vals kvs

/-- The for-loop of get_file_paths over a list or tuple. -/
def get_file_paths_list : List JVal → Except CromErr (List JVal)
  | [] => .ok []
  | x :: rest =>
    match get_file_paths x with
    | .error e => .error e
    | .ok n =>
      match get_file_paths_list rest with
      | .error e => .error e
      | .ok r => .ok (n ++ r)

/-- The for-loop of get_file_paths over the values of an unclassed mapping. -/
def get_file_paths_vals : List (String × JVal) → Except CromErr (List JVal)
  | [] => .ok []
  | (_, v) :: rest =>
    match get_file_paths v with
    | .error e => .error e
    | .ok n =>
      match get_file_paths_vals rest with
      | .error e => .error e
      | .ok r => .ok (n ++ r)

end

/-- Python set.add on a set represented as a duplicate-free list. -/
def setAdd (out : List String) (tag : String) : List String :=
  if out.contains tag then out else out ++ [tag]

/-- The classification loop of get_filesystem_types: each file reference
must be a string (otherwise startswith raises AttributeError) and is
classified by its scheme prefix. -/
def classify_files (ext : String) (out : List String) : List JVal → Except CromErr (List String)
  | [] => .ok out
  | f :: rest =>
    match f with
    | .str s =>
      if pyStartsWith s "gs:" then classify_files ext (setAdd out ("gcp" ++ ext)) rest
      else if pyStartsWith s "https:" || pyStartsWith s "http:" then
        classify_files ext (setAdd out ("http" ++ ext)) rest
      else classify_files ext (setAdd out ("local" ++ ext)) rest
    | _ => .error .attributeError

/-- The validated run arguments consumed by the generator.  The
runconfig field carries the outcome of the external pyhocon parse of the
optional custom-configuration document: absent, unparsable, or parsed
with an optional re-serialized database section. -/
structure RunArgs where
  scheduler : String
  queue : String
  resources : List String
  joblimit : Int
  no_container : Bool
  runconfig : Option (Except Unit (Option String))

/-- Embedding of get_filesystem_types: extract the file references from
the manifest and classify each, suffixing tags with the container marker
exactly when no_container is false. -/
def get_filesystem_types (args : RunArgs) (sampleJson : JVal) : Except CromErr (List String) :=
  let ext := if args.no_container then "" else "_container"
  match get_file_paths sampleJson with
  | .error e => .error e
  | .ok files => classify_files ext [] files

/-- The per-scheduler default parameter mappings of args_to_cromwell
(the default_config dict literal, rebuilt on every call). -/
def default_config : String → Option (List (String × String))
  | "slurm" => some [("timelimit", "1-00:00"), ("account", "")]
  | "sge" => some [("memtype", "mem_type"), ("pename", "smp")]
  | "lsf" => some []
  | "htcondor" => some []
  | "torque" => some [("walltime", "24:00:00"), ("account", "")]
  | "pbspro" => some [("walltime", "24:00:00"), ("account", ""),
      ("cpu_and_mem", "-l select=1:ncpus=$\x7bcpu\x7d:mem=$\x7bmemory_mb\x7dmb")]
  | _ => none

/-- The command-line-flag prefix table of args_to_cromwell, keyed on
(parameter, scheduler); absent pairs give the empty prefix. -/
def prefixesFor (key scheduler : String) : String :=
  if (key = "account" && scheduler = "slurm") || (key = "account" && scheduler = "pbspro") then "-A "
  else ""

/-- The shorthand table of args_to_cromwell for bare resource flags,
keyed on (flag, scheduler). -/
def customFor (key scheduler : String) : Option (String × String) :=
  if key = "noselect" && scheduler = "pbspro" then
    some ("cpu_and_mem", "-l ncpus=$\x7bcpu\x7d -l mem=$\x7bmemory_mb\x7dmb")
  else none

/-- One resource-override token of args_to_cromwell: key=value sets the
key with its scheduler prefix, a bare key consults the shorthand table,
anything else is ignored. -/
def processToken (scheduler : String) (config : List (String × String)) (r : String) :
    List (String × String) :=
  match pySplit '=' r with
  | [key, val] => dictSet config key (prefixesFor key scheduler ++ val)
  | [key] =>
    match customFor key scheduler with
    | some kv => dictSet config kv.1 kv.2
    | none => config
  | _ => config

/-- The nested resource loop of args_to_cromwell: each resource string
is split on semicolons and every token processed in order. -/
def processResources (scheduler : String) (config : List (String × String))
    (resources : List String) : List (String × String) :=
  resources.foldl (fun cfg rs => (pySplit ';' rs).foldl (fun c r => processToken scheduler c r) cfg) config

/-- Embedding of args_to_cromwell: validate the scheduler and queue,
then build the command line and the parameter mapping from the defaults,
the queue and the resource overrides. -/
def args_to_cromwell (args : RunArgs) :
    Except CromErr (List String × List (String × String) × String) :=
  if args.scheduler = "" then .ok ([], [], args.scheduler)
  else
    match default_config args.scheduler with
    | none => .error .unsupportedScheduler
    | some cfg0 =>
      if args.queue = "" ∧ args.scheduler ∉ ["htcondor"] then .error .missingQueue
      else
        let cl := ["-Dbackend.default=" ++ pyUpper args.scheduler]
        let config := dictSet cfg0 "queue" args.queue
        let config := processResources args.scheduler config args.resources
        .ok (cl, config, args.scheduler)

/-- FILESYSTEM_CONFIG entry for tag gcp. -/
def FILESYSTEM_GCP : String :=
  "\n        gcs \x7b\n          auth = \"application-default\"\n          caching \x7b\n            duplication-strategy = \"reference\"\n          \x7d\n        \x7d\n  "

/-- FILESYSTEM_CONFIG entry for tag gcp_container. -/
def FILESYSTEM_GCP_CONTAINER : String :=
  "\n        gcs \x7b\n          auth = \"application-default\"\n          caching \x7b\n            duplication-strategy = \"copy\"\n          \x7d\n        \x7d\n  "

/-- FILESYSTEM_CONFIG entry for tag http. -/
def FILESYSTEM_HTTP : String := "\n        http \x7b \x7d\n  "

/-- FILESYSTEM_CONFIG entry for tag http_container. -/
def FILESYSTEM_HTTP_CONTAINER : String := "\n        http \x7b \x7d\n  "

/-- FILESYSTEM_CONFIG entry for tag local. -/
def FILESYSTEM_LOCAL : String :=
  "\n        local \x7b\n          localization: [\"soft-link\"]\n          caching \x7b\n            duplication-strategy: [\"soft-link\"]\n            hashing-strategy: \"path\"\n          \x7d\n        \x7d\n"

/-- FILESYSTEM_CONFIG entry for tag local_container. -/
def FILESYSTEM_LOCAL_CONTAINER : String :=
  "\n        gcs \x7b\n          auth = \"application-default\"\n          caching \x7b\n            duplication-strategy = \"copy\"\n          \x7d\n        \x7d\n"

/-- The FILESYSTEM_CONFIG dict: fragment text per filesystem tag. -/
def FILESYSTEM_CONFIG : String → Option String
  | "gcp" => some FILESYSTEM_GCP
  | "gcp_container" => some FILESYSTEM_GCP_CONTAINER
  | "http" => some FILESYSTEM_HTTP
  | "http_container" => some FILESYSTEM_HTTP_CONTAINER
  | "local" => some FILESYSTEM_LOCAL
  | "local_container" => some FILESYSTEM_LOCAL_CONTAINER
  | _ => none

/-- The accumulation loop of get_filesystem_config over the sorted tag
list; an unknown tag is a KeyError on the FILESYSTEM_CONFIG dict. -/
def fragmentsText : List String → Except CromErr String
  | [] => .ok ""
  | t :: rest =>
    match FILESYSTEM_CONFIG t with
    | none => .error .keyError
    | some f =>
      match fragmentsText rest with
      | .error e => .error e
      | .ok r => .ok (f ++ r)

/-- Embedding of get_filesystem_config: concatenate, in sorted tag
order, the fragment of every detected filesystem type, wrapped in a
filesystems block.  The set of tags is modelled as a list; dedup models
set semantics and insertionSort the Python sorted builtin. -/
def get_filesystem_config (file_types : List String) : Except CromErr String :=
  match fragmentsText (List.insertionSort (fun a b => a ≤ b) file_types.dedup) with
  | .error e => .error e
  | .ok body => .ok ("     filesystems \x7b\n" ++ body ++ "      \x7d\n")

/-- The DATABASE_CONFIG template applied to the working directory. -/
def DATABASE_CONFIG (work_dir : String) : String :=
  "\ndatabase \x7b\n  profile = \"slick.jdbc.HsqldbProfile$\"\n  db \x7b\n    driver = \"org.hsqldb.jdbcDriver\"\n    url = \"jdbc:hsqldb:file:" ++ work_dir ++ "/persist/metadata;shutdown=false;hsqldb.tx=mvcc\"\n    connectionTimeout = 200000\n  \x7d\n\x7d\n"

/-- The AUTH_CONFIG_GOOGLE constant. -/
def AUTH_CONFIG_GOOGLE : String :=
  "\ngoogle \x7b\n  application-name = \"cromwell\"\n  auths = [\n    \x7b\n      name = \"application-default\"\n      scheme = \"application_default\"\n    \x7d\n  ]\n\x7d\n"

/-- Embedding of get_engine_filesystem_config: strip the container
suffix from every tag, then emit the google auth block and an engine
filesystems block for the cloud and http tags actually present. -/
def get_engine_filesystem_config (file_types : List String) : String :=
  let ft := file_types.map (fun x => pyReplace x "_container" "")
  let out := if ft.contains "gcp" then AUTH_CONFIG_GOOGLE else ""
  if ft.contains "gcp" || ft.contains "http" then
    out ++ "engine \x7b\n" ++ "  filesystems \x7b\n"
      ++ (if ft.contains "gcp" then
            "    gcs \x7b\n" ++ "      auth = \"application-default\"\n" ++ "    \x7d\n"
          else "")
      ++ (if ft.contains "http" then "    http \x7b\x7d\n" else "")
      ++ "  \x7d\n" ++ "\x7d\n"
  else out

/-- Embedding of load_custom_config, with the external pyhocon parse
outcome supplied as input: a parse failure propagates; otherwise only a
database section, when present, is extracted. -/
def load_custom_config (rc : Except Unit (Option String)) :
    Except CromErr (List (String × String)) :=
  match rc with
  | .error _ => .error .configParseError
  | .ok none => .ok []
  | .ok (some dbText) => .ok [("database", dbText)]

/-- The shared substitution values (the std_args dict of
create_cromwell_config). -/
structure StdArgs where
  docker_attrs : String
  submit_docker : String
  joblimit : String
  cwl_attrs : String
  filesystem : String
  database : String
  engine : String

/-- The docker_attrs declarations joined as in create_cromwell_config. -/
def dockerAttrsText : String := "String? docker\n        String? docker_user"

/-- The cwl_attrs declarations joined as in create_cromwell_config. -/
def cwlAttrsText : String :=
  "Int? cpuMin\n        Int? cpuMax\n        Int? memoryMin\n        Int? memoryMax\n        String? outDirMin\n        String? outDirMax\n        String? tmpDirMin\n        String? tmpDirMax"

/-- conf_args.update(std_args): merge the shared values into the
scheduler parameter mapping, in the dict literal order of std_args. -/
def mergeStd (conf : List (String × String)) (sa : StdArgs) : List (String × String) :=
  dictSet (dictSet (dictSet (dictSet (dictSet (dictSet (dictSet conf
    "docker_attrs" sa.docker_attrs)
    "submit_docker" sa.submit_docker)
    "joblimit" sa.joblimit)
    "cwl_attrs" sa.cwl_attrs)
    "filesystem" sa.filesystem)
    "database" sa.database)
    "engine" sa.engine

/-- HPC_CONFIGS slurm template rendered by percent-formatting from the
merged parameter mapping (line continuations inside the Python string
literal collapse the submit command onto one line). -/
def hpcSlurm (conf : List (String × String)) : Except CromErr String :=
  match dictGetE conf "joblimit" with
  | .error e => .error e
  | .ok joblimit =>
  match dictGetE conf "queue" with
  | .error e => .error e
  | .ok queue =>
  match dictGetE conf "timelimit" with
  | .error e => .error e
  | .ok timelimit =>
  match dictGetE conf "account" with
  | .error e => .error e
  | .ok account =>
  match dictGetE conf "docker_attrs" with
  | .error e => .error e
  | .ok docker_attrs =>
  match dictGetE conf "cwl_attrs" with
  | .error e => .error e
  | .ok cwl_attrs =>
  match dictGetE conf "filesystem" with
  | .error e => .error e
  | .ok filesystem =>
    .ok ("\n    SLURM \x7b\n      actor-factory = \"cromwell.backend.impl.sfs.config.ConfigBackendLifecycleActorFactory\"\n      config \x7b\n        "
      ++ joblimit
      ++ "\n        runtime-attributes = \"\"\"\n        Int cpu = 1\n        Int memory_mb = 2048\n        String queue = \""
      ++ queue ++ "\"\n        String timelimit = \"" ++ timelimit
      ++ "\"\n        String account = \"" ++ account ++ "\"\n        "
      ++ docker_attrs ++ "\n        " ++ cwl_attrs
      ++ "\n        \"\"\"\n        submit = \"\"\"\n            sbatch -J $\x7bjob_name\x7d -D $\x7bcwd\x7d -o $\x7bout\x7d -e $\x7berr\x7d -t $\x7btimelimit\x7d -p $\x7bqueue\x7d             $\x7b\"--cpus-per-task=\" + cpu\x7d --mem=$\x7bmemory_mb\x7d $\x7baccount\x7d             --wrap \"/usr/bin/env bash $\x7bscript\x7d\"\n        \"\"\"\n        kill = \"scancel $\x7bjob_id\x7d\"\n        check-alive = \"squeue -j $\x7bjob_id\x7d\"\n        job-id-regex = \"Submitted batch job (\\\\d+).*\"\n        "
      ++ filesystem ++ "\n      \x7d\n    \x7d\n")

/-- HPC_CONFIGS pbspro template rendered from the merged mapping. -/
def hpcPbspro (conf : List (String × String)) : Except CromErr String :=
  match dictGetE conf "joblimit" with
  | .error e => .error e
  | .ok joblimit =>
  match dictGetE conf "queue" with
  | .error e => .error e
  | .ok queue =>
  match dictGetE conf "account" with
  | .error e => .error e
  | .ok account =>
  match dictGetE conf "walltime" with
  | .error e => .error e
  | .ok walltime =>
  match dictGetE conf "docker_attrs" with
  | .error e => .error e
  | .ok docker_attrs =>
  match dictGetE conf "cwl_attrs" with
  | .error e => .error e
  | .ok cwl_attrs =>
  match dictGetE conf "cpu_and_mem" with
  | .error e => .error e
  | .ok cpu_and_mem =>
  match dictGetE conf "filesystem" with
  | .error e => .error e
  | .ok filesystem =>
    .ok ("\n    PBSPRO \x7b\n      actor-factory = \"cromwell.backend.impl.sfs.config.ConfigBackendLifecycleActorFactory\"\n      config \x7b\n        "
      ++ joblimit
      ++ "\n        runtime-attributes = \"\"\"\n        Int cpu = 1\n        Int memory_mb = 2048\n        String queue = \""
      ++ queue ++ "\"\n        String account = \"" ++ account
      ++ "\"\n        String walltime = \"" ++ walltime ++ "\"\n        "
      ++ docker_attrs ++ "\n        " ++ cwl_attrs
      ++ "\n        \"\"\"\n        submit = \"\"\"\n        qsub -V -l wd -N $\x7bjob_name\x7d -o $\x7bout\x7d -e $\x7berr\x7d -q $\x7bqueue\x7d -l walltime=$\x7bwalltime\x7d         "
      ++ cpu_and_mem
      ++ "         -- /usr/bin/env bash $\x7bscript\x7d\n        \"\"\"\n        kill = \"qdel $\x7bjob_id\x7d\"\n        check-alive = \"qstat -j $\x7bjob_id\x7d\"\n        job-id-regex = \"(\\\\d+).*\"\n        "
      ++ filesystem ++ "\n      \x7d\n    \x7d\n\n")

/-- HPC_CONFIGS torque template rendered from the merged mapping. -/
def hpcTorque (conf : List (String × String)) : Except CromErr String :=
  match dictGetE conf "joblimit" with
  | .error e => .error e
  | .ok joblimit =>
  match dictGetE conf "queue" with
  | .error e => .error e
  | .ok queue =>
  match dictGetE conf "account" with
  | .error e => .error e
  | .ok account =>
  match dictGetE conf "walltime" with
  | .error e => .error e
  | .ok walltime =>
  match dictGetE conf "docker_attrs" with
  | .error e => .error e
  | .ok docker_attrs =>
  match dictGetE conf "cwl_attrs" with
  | .error e => .error e
  | .ok cwl_attrs =>
  match dictGetE conf "filesystem" with
  | .error e => .error e
  | .ok filesystem =>
    .ok ("\n    TORQUE \x7b\n      actor-factory = \"cromwell.backend.impl.sfs.config.ConfigBackendLifecycleActorFactory\"\n      config \x7b\n        "
      ++ joblimit
      ++ "\n        runtime-attributes = \"\"\"\n        Int cpu = 1\n        Int memory_mb = 2048\n        String queue = \""
      ++ queue ++ "\"\n        String account = \"" ++ account
      ++ "\"\n        String walltime = \"" ++ walltime ++ "\"\n        "
      ++ docker_attrs ++ "\n        " ++ cwl_attrs
      ++ "\n        \"\"\"\n        submit = \"\"\"\n        qsub -V -d $\x7bcwd\x7d -N $\x7bjob_name\x7d -o $\x7bout\x7d -e $\x7berr\x7d -q $\x7bqueue\x7d         -l nodes=1:ppn=$\x7bcpu\x7d -l mem=$\x7bmemory_mb\x7dmb -l walltime=$\x7bwalltime\x7d         $\x7bscript\x7d\n        \"\"\"\n        kill = \"qdel $\x7bjob_id\x7d\"\n        check-alive = \"qstat $\x7bjob_id\x7d\"\n        job-id-regex = \"(\\\\d+).*\"\n        "
      ++ filesystem ++ "\n      \x7d\n    \x7d\n")

/-- HPC_CONFIGS htcondor template rendered from the merged mapping (the
hash-prefixed submit-docker lines are part of the template text). -/
def hpcHtcondor (conf : List (String × String)) : Except CromErr String :=
  match dictGetE conf "joblimit" with
  | .error e => .error e
  | .ok joblimit =>
  match dictGetE conf "docker_attrs" with
  | .error e => .error e
  | .ok docker_attrs =>
  match dictGetE conf "cwl_attrs" with
  | .error e => .error e
  | .ok cwl_attrs =>
  match dictGetE conf "filesystem" with
  | .error e => .error e
  | .ok filesystem =>
    .ok ("\n    HTCONDOR \x7b\n      actor-factory = \"cromwell.backend.impl.sfs.config.ConfigBackendLifecycleActorFactory\"\n      config \x7b\n        "
      ++ joblimit
      ++ "\n        runtime-attributes = \"\"\"\n          Int cpu = 1\n          Float memory_mb = 512.0\n          Float disk_kb = 256000.0\n          String? nativeSpecs\n          "
      ++ docker_attrs ++ "\n          " ++ cwl_attrs
      ++ "\n        \"\"\"\n        submit = \"\"\"\n          chmod 755 $\x7bscript\x7d\n          cat > $\x7bcwd\x7d/execution/submitFile <<EOF\n          Iwd=$\x7bcwd\x7d/execution\n          requirements=$\x7bnativeSpecs\x7d\n          leave_in_queue=true\n          request_memory=$\x7bmemory_mb\x7d\n          request_disk=$\x7bdisk_kb\x7d\n          error=$\x7berr\x7d\n          output=$\x7bout\x7d\n          log_xml=true\n          request_cpus=$\x7bcpu\x7d\n          executable=$\x7bscript\x7d\n          log=$\x7bcwd\x7d/execution/execution.log\n          description=$\x7bjob_name\x7d\n          getenv=true\n          queue\n          EOF\n          condor_submit $\x7bcwd\x7d/execution/submitFile\n        \"\"\"\n        # submit-docker = \"\"\"\n        #   chmod 755 $\x7bscript\x7d\n        #   cat > $\x7bcwd\x7d/execution/dockerScript <<EOF\n        #   #!/bin/bash\n        #   docker run --rm -i -v $\x7bcwd\x7d:$\x7bdocker_cwd\x7d $\x7bdocker\x7d /bin/bash $\x7bscript\x7d\n        #   EOF\n        #   chmod 755 $\x7bcwd\x7d/execution/dockerScript\n        #   cat > $\x7bcwd\x7d/execution/submitFile <<EOF\n        #   Iwd=$\x7bcwd\x7d/execution\n        #   requirements=$\x7bnativeSpecs\x7d\n        #   leave_in_queue=true\n        #   request_memory=$\x7bmemory_mb\x7d\n        #   request_disk=$\x7bdisk_kb\x7d\n        #   error=$\x7bcwd\x7d/execution/stderr\n        #   output=$\x7bcwd\x7d/execution/stdout\n        #   log_xml=true\n        #   request_cpus=$\x7bcpu\x7d\n        #   executable=$\x7bcwd\x7d/execution/dockerScript\n        #   log=$\x7bcwd\x7d/execution/execution.log\n        #   queue\n        #   EOF\n        #   condor_submit $\x7bcwd\x7d/execution/submitFile\n        # \"\"\"\n        kill = \"condor_rm $\x7bjob_id\x7d\"\n        check-alive = \"condor_q $\x7bjob_id\x7d\"\n        job-id-regex = \"(?sm).*cluster (\\\\d+)..*\"\n        "
      ++ filesystem ++ "\n      \x7d\n    \x7d\n")

/-- HPC_CONFIGS[scheduler] percent-rendered with the merged parameter
mapping.  The sge template carries the malformed placeholder
(pename followed by a closing brace), on which Python percent-formatting
raises ValueError: incomplete format key, so rendering sge always fails;
a scheduler absent from HPC_CONFIGS (such as lsf) is a KeyError. -/
def hpc_config (scheduler : String) (conf : List (String × String)) : Except CromErr String :=
  match scheduler with
  | "slurm" => hpcSlurm conf
  | "sge" => .error .valueError
  | "pbspro" => hpcPbspro conf
  | "torque" => hpcTorque conf
  | "htcondor" => hpcHtcondor conf
  | _ => .error .keyError

/-- The opening literal text of the CROMWELL_CONFIG template, up to the
database placeholder. -/
def CROMWELL_HEAD : String :=
  "\ninclude required(classpath(\"application\"))\n\nsystem \x7b\n  workflow-restart = true\n\x7d\ncall-caching \x7b\n  enabled = true\n\x7d\nload-control \x7b\n  # Avoid watching memory, since the load-controller stops jobs on local runs\n  memory-threshold-in-mb = 1\n\x7d\n\ncwltool-runner \x7b\n  # Use external cwltool to avoid slow runtimes with java embedded pre-processing\n  class = \"cwl.CwltoolProcess\"\n\x7d\n\n"

/-- The literal text of CROMWELL_CONFIG between the engine placeholder
and the joblimit placeholder of the Local provider. -/
def CROMWELL_LOCAL_OPEN : String :=
  "\n\nbackend \x7b\n  providers \x7b\n    Local \x7b\n      config \x7b\n        "

/-- The remainder of the CROMWELL_CONFIG template after the joblimit
placeholder of the Local provider. -/
def renderCromwellTail (sa : StdArgs) (hpc : String) : String :=
  "\n        runtime-attributes = \"\"\"\n        Int? cpu\n        Int? memory_mb\n        "
  ++ sa.docker_attrs ++ "\n        " ++ sa.cwl_attrs
  ++ "\n        \"\"\"\n        " ++ sa.submit_docker ++ "\n        " ++ sa.filesystem
  ++ "\n      \x7d\n    \x7d\n" ++ hpc ++ "\n  \x7d\n\x7d\n"

/-- The CROMWELL_CONFIG top-level template rendered with the shared
values and the optional scheduler block. -/
def renderCromwellConfig (sa : StdArgs) (hpc : String) : String :=
  CROMWELL_HEAD
  ++ sa.database ++ "\n\n" ++ sa.engine
  ++ CROMWELL_LOCAL_OPEN
  ++ sa.joblimit
  ++ renderCromwellTail sa hpc

/-- The effective job limit of create_cromwell_config: a requested
limit of zero with no scheduler selected is forced to one. -/
def effJoblimit (args : RunArgs) : Int :=
  if args.joblimit = 0 ∧ args.scheduler = "" then 1 else args.joblimit

/-- The std_args dict of create_cromwell_config: the shared substitution
values computed from the arguments and the detected filesystem types. -/
def buildStdArgs (args : RunArgs) (work_dir : String) (run_config : List (String × String))
    (file_types : List String) (filesystem : String) : StdArgs :=
  { docker_attrs := if args.no_container then "" else dockerAttrsText
    submit_docker := if args.no_container then "submit-docker: \"\"" else ""
    joblimit := if effJoblimit args > 0 then "concurrent-job-limit = " ++ toString (effJoblimit args) else ""
    cwl_attrs := cwlAttrsText
    filesystem := filesystem
    database := (List.lookup "database" run_config).getD (DATABASE_CONFIG work_dir)
    engine := get_engine_filesystem_config file_types }

/-- Embedding of create_cromwell_config up to the file write: assemble
the complete configuration text, or fail with the first error raised. -/
def create_cromwell_config_text (args : RunArgs) (work_dir : String) (sampleJson : JVal) :
    Except CromErr String :=
  match (match args.runconfig with
         | some rc => load_custom_config rc
         | none => .ok []) with
  | .error e => .error e
  | .ok run_config =>
    match get_filesystem_types args sampleJson with
    | .error e => .error e
    | .ok file_types =>
      match get_filesystem_config file_types with
      | .error e => .error e
      | .ok filesystem =>
        match args_to_cromwell args with
        | .error e => .error e
        | .ok (_cl, conf_args, scheduler) =>
          match (if scheduler = "" then .ok ""
                 else hpc_config scheduler
                   (mergeStd conf_args (buildStdArgs args work_dir run_config file_types filesystem))) with
          | .error e => .error e
          | .ok hpc =>
            .ok (renderCromwellConfig (buildStdArgs args work_dir run_config file_types filesystem) hpc)

/-- Embedding of create_cromwell_config including its single effect: the
state of the output file bcbio-cromwell.conf in the working directory is
threaded explicitly; the complete text is written in one step after all
computation, and the function returns the output path.  On any error the
file state is left untouched. -/
def create_cromwell_config_fs (args : RunArgs) (work_dir : String) (sampleJson : JVal)
    (fs : Option String) : Option String × Except CromErr String :=
  match create_cromwell_config_text args work_dir sampleJson with
  | .ok text => (some text, .ok (work_dir ++ "/bcbio-cromwell.conf"))
  | .error e => (fs, .error e)

/-! Shared concrete inputs used by witnesses and counterexamples. -/

/-- A manifest with a single local file record. -/
def manifestLocal : JVal := .obj [("class", .str "File"), ("path", .str "/data/x.bam")]

/-- A manifest with a single object-storage file record. -/
def manifestGs : JVal := .obj [("class", .str "File"), ("path", .str "gs://bucket/sample.bam")]

/-- The scheduler identifiers accepted by args_to_cromwell, i.e. the
keys of its default_config dict. -/
def supportedSchedulers : List String := ["slurm", "sge", "lsf", "htcondor", "torque", "pbspro"]

lemma default_config_none_iff (s : String) :
    default_config s = none ↔ s ∉ supportedSchedulers := by
  constructor
  · intro h hmem
    simp only [supportedSchedulers, List.mem_cons, List.not_mem_nil, or_false] at hmem
    rcases hmem with rfl | rfl | rfl | rfl | rfl | rfl <;> exact absurd h (by decide)
  · intro h
    unfold default_config
    split <;> first | rfl | (exfalso; apply h; simp_all [supportedSchedulers])

/-- Claim C2 (corrected): the scheduler identifier lsf is not in the
enum named by the claim, yet the translator accepts it without raising
UnsupportedSchedulerError, refuting the claim as stated. -/
theorem c2_unsupported_scheduler_counterexample :
    args_to_cromwell ⟨"lsf", "q", [], 0, false, none⟩
        = .ok (["-Dbackend.default=LSF"], [("queue", "q")], "lsf")
    ∧ "lsf" ∉ ["slurm", "sge", "pbspro", "torque", "htcondor"] := by
  exact ⟨rfl, by decide⟩

/-- Claim C2 (amended): for every RunArguments with a non-empty
scheduler identifier, args_to_cromwell raises UnsupportedSchedulerError
exactly when the identifier is outside the supported set
slurm, sge, lsf, htcondor, torque, pbspro. -/
theorem c2_unsupported_scheduler (args : RunArgs) (h : args.scheduler ≠ "") :
    args_to_cromwell args = .error .unsupportedScheduler
      ↔ args.scheduler ∉ supportedSchedulers := by
  unfold args_to_cromwell
  rw [if_neg h]
  cases hd : default_config args.scheduler with
  | none =>
    simp only [true_iff]
    exact (default_config_none_iff _).mp hd
  | some cfg0 =>
    have hmem : args.scheduler ∈ supportedSchedulers := by
      by_contra hn
      rw [(default_config_none_iff _).mpr hn] at hd
      cases hd
    simp only [hmem, not_true_eq_false, iff_false]
    split <;> simp

/-- Witness for c2_unsupported_scheduler at the concrete identifier foo. -/
theorem c2_unsupported_scheduler_witness :
    args_to_cromwell ⟨"foo", "q", [], 0, false, none⟩ = .error .unsupportedScheduler := by
  rw [c2_unsupported_scheduler ⟨"foo", "q", [], 0, false, none⟩ (by decide)]
  decide

/-- Claim C4 (corrected): on scheduler slurm the resource override
account=myacct is stored with the registered prefix, as -A myacct, not
as the bare value myacct claimed by the specification. -/
theorem c4_account_prefix_counterexample :
    (∃ r, args_to_cromwell ⟨"slurm", "q", ["account=myacct"], 0, false, none⟩ = .ok r
       ∧ List.lookup "account" r.2.1 = some "-A myacct")
    ∧ "-A myacct" ≠ "myacct" := by
  exact ⟨⟨_, rfl, rfl⟩, by decide⟩

/-- Claim C4 (amended): the prefix table registers -A for account on
both slurm and pbspro, so the override account=myacct yields the
mapping entry account = -A myacct on either scheduler. -/
theorem c4_account_prefix :
    (∃ r, args_to_cromwell ⟨"slurm", "q", ["account=myacct"], 0, false, none⟩ = .ok r
       ∧ List.lookup "account" r.2.1 = some "-A myacct")
    ∧ (∃ r, args_to_cromwell ⟨"pbspro", "q", ["account=myacct"], 0, false, none⟩ = .ok r
       ∧ List.lookup "account" r.2.1 = some "-A myacct") :=
  ⟨⟨_, rfl, rfl⟩, ⟨_, rfl, rfl⟩⟩

/-- Claim C5 (confirmed): with a supported scheduler and no queue, the
translator raises MissingQueueError unless the scheduler is htcondor,
which succeeds without a queue. -/
theorem c5_queue_required (args : RunArgs)
    (hsch : args.scheduler ∈ supportedSchedulers) (hq : args.queue = "") :
    (args.scheduler ≠ "htcondor" → args_to_cromwell args = .error .missingQueue)
    ∧ (args.scheduler = "htcondor" → ∃ r, args_to_cromwell args = .ok r) := by
  obtain ⟨sch, q, res, jl, nc, rc⟩ := args
  dsimp only at hsch hq ⊢
  subst hq
  simp only [supportedSchedulers, List.mem_cons, List.not_mem_nil, or_false] at hsch
  rcases hsch with rfl | rfl | rfl | rfl | rfl | rfl <;> constructor <;> intro h <;>
    first
    | rfl
    | (exact absurd rfl h)
    | (exact absurd h (by decide))
    | (exact ⟨_, rfl⟩)

/-- Witness for c5_queue_required: slurm without a queue fails with the
missing-queue error and htcondor without a queue succeeds. -/
theorem c5_queue_required_witness :
    args_to_cromwell ⟨"slurm", "", [], 0, false, none⟩ = .error .missingQueue
    ∧ ∃ r, args_to_cromwell ⟨"htcondor", "", [], 0, false, none⟩ = .ok r :=
  ⟨(c5_queue_required ⟨"slurm", "", [], 0, false, none⟩ (by decide) rfl).1 (by decide),
   (c5_queue_required ⟨"htcondor", "", [], 0, false, none⟩ (by decide) rfl).2 rfl⟩

/-- Claim C8 (confirmed): a resource token with more than one equals
sign, or a bare key absent from the shorthand table, leaves the
parameter mapping unchanged and raises nothing; a bare key present in
the shorthand table sets the shorthand target key to its literal value. -/
theorem c8_token_permissive (scheduler : String) (config : List (String × String)) (r : String) :
    ((pySplit '=' r).length = 1 →
        customFor ((pySplit '=' r).headD "") scheduler = none →
        processToken scheduler config r = config)
    ∧ (3 ≤ (pySplit '=' r).length → processToken scheduler config r = config)
    ∧ (∀ k v, (pySplit '=' r).length = 1 →
        customFor ((pySplit '=' r).headD "") scheduler = some (k, v) →
        processToken scheduler config r = dictSet config k v) := by
  refine ⟨?_, ?_, ?_⟩
  · intro hlen hcust
    unfold processToken
    rcases hps : pySplit '=' r with _ | ⟨a, _ | ⟨b, rest⟩⟩ <;> rw [hps] at hlen hcust <;>
      simp_all
  · intro hlen
    unfold processToken
    rcases hps : pySplit '=' r with _ | ⟨a, _ | ⟨b, _ | ⟨c, rest⟩⟩⟩ <;> rw [hps] at hlen <;>
      simp_all
  · intro k v hlen hcust
    unfold processToken
    rcases hps : pySplit '=' r with _ | ⟨a, _ | ⟨b, rest⟩⟩ <;> rw [hps] at hlen hcust <;>
      simp_all

/-- Witness for c8_token_permissive: an unknown bare key and a
double-equals token are ignored on slurm, and the bare key noselect on
pbspro sets cpu_and_mem to the registered literal. -/
theorem c8_token_permissive_witness :
    processToken "slurm" [("account", "")] "noselect" = [("account", "")]
    ∧ processToken "slurm" [("account", "")] "a=b=c" = [("account", "")]
    ∧ processToken "pbspro" [] "noselect"
        = dictSet [] "cpu_and_mem" "-l ncpus=$\x7bcpu\x7d -l mem=$\x7bmemory_mb\x7dmb" :=
  ⟨(c8_token_permissive "slurm" [("account", "")] "noselect").1 rfl rfl,
   (c8_token_permissive "slurm" [("account", "")] "a=b=c").2.1 (by decide),
   (c8_token_permissive "pbspro" [] "noselect").2.2 _ _ rfl rfl⟩

lemma setAdd_mem {out : List String} {x t : String} (h : t ∈ setAdd out x) :
    t ∈ out ∨ t = x := by
  unfold setAdd at h
  split at h
  · exact .inl h
  · rcases List.mem_append.mp h with h | h
    · exact .inl h
    · simp only [List.mem_singleton] at h
      exact .inr h

lemma classify_files_mem (ext : String) :
    ∀ (files : List JVal) (out ts : List String),
      classify_files ext out files = .ok ts → ∀ t ∈ ts,
        t ∈ out ∨ t = "gcp" ++ ext ∨ t = "http" ++ ext ∨ t = "local" ++ ext := by
  intro files
  induction files with
  | nil =>
    intro out ts h t ht
    unfold classify_files at h
    cases h
    exact .inl ht
  | cons f rest ih =>
    intro out ts h t ht
    cases f with
    | str s =>
      simp only [classify_files] at h
      split at h
      · rcases ih _ _ h t ht with hmem | hrest
        · rcases setAdd_mem hmem with hmem2 | heq
          · exact .inl hmem2
          · exact .inr (.inl heq)
        · exact .inr hrest
      · split at h
        · rcases ih _ _ h t ht with hmem | hrest
          · rcases setAdd_mem hmem with hmem2 | heq
            · exact .inl hmem2
            · exact .inr (.inr (.inl heq))
          · exact .inr hrest
        · rcases ih _ _ h t ht with hmem | hrest
          · rcases setAdd_mem hmem with hmem2 | heq
            · exact .inl hmem2
            · exact .inr (.inr (.inr heq))
          · exact .inr hrest
    | num n => exact absurd h (by simp [classify_files])
    | jbool b => exact absurd h (by simp [classify_files])
    | jnull => exact absurd h (by simp [classify_files])
    | arr xs => exact absurd h (by simp [classify_files])
    | obj kvs => exact absurd h (by simp [classify_files])

/-- Every tag produced by the filesystem-type detector is one of the
three scheme tags with the container extension determined by the
no_container flag. -/
lemma get_filesystem_types_tags (args : RunArgs) (j : JVal) (ts : List String)
    (hok : get_filesystem_types args j = .ok ts) :
    ∀ t ∈ ts,
      t = "gcp" ++ (if args.no_container then "" else "_container")
      ∨ t = "http" ++ (if args.no_container then "" else "_container")
      ∨ t = "local" ++ (if args.no_container then "" else "_container") := by
  intro t ht
  unfold get_filesystem_types at hok
  cases hf : get_file_paths j with
  | error e => rw [hf] at hok; cases hok
  | ok files =>
    rw [hf] at hok
    rcases classify_files_mem _ files [] ts hok t ht with hmem | hrest
    · cases hmem
    · exact hrest

/-- Claim C1 (corrected): with the container-disabled flag set, the
detector classifies a local file as the bare tag local, which does not
carry the container marker, refuting the claim that disabling containers
adds the suffix. -/
theorem c1_container_suffix_counterexample :
    get_filesystem_types ⟨"", "", [], 1, true, none⟩ manifestLocal = .ok ["local"]
    ∧ "_container".data.isSuffixOf "local".data = false := ⟨rfl, rfl⟩

/-- Claim C1 (amended): the detector suffixes every tag with the
container marker exactly when containers are enabled (no_container is
false); when the container-disabled flag is set no tag carries the
suffix. -/
theorem c1_container_suffix (args : RunArgs) (j : JVal) (ts : List String) (t : String)
    (hok : get_filesystem_types args j = .ok ts) (ht : t ∈ ts) :
    (args.no_container = true → "_container".data.isSuffixOf t.data = false)
    ∧ (args.no_container = false → "_container".data.isSuffixOf t.data = true) := by
  have htag := get_filesystem_types_tags args j ts hok t ht
  constructor
  · intro hnc
    rw [hnc] at htag
    rcases htag with rfl | rfl | rfl <;> rfl
  · intro hnc
    rw [hnc] at htag
    rcases htag with rfl | rfl | rfl <;> rfl

/-- Witness for c1_container_suffix: a gs-scheme file with containers
enabled yields the tag gcp_container, which carries the suffix. -/
theorem c1_container_suffix_witness :
    ("_container".data.isSuffixOf "gcp_container".data = true)
    ∧ (get_filesystem_types ⟨"", "", [], 0, false, none⟩ manifestGs = .ok ["gcp_container"]) :=
  ⟨(c1_container_suffix ⟨"", "", [], 0, false, none⟩ manifestGs ["gcp_container"]
      "gcp_container" rfl (by simp)).2 rfl, rfl⟩

/-- Claim C9 (confirmed): on a mapping carrying the class key, the
file-path traversal returns exactly the value at the path key without
recursing into any other value, and raises KeyError when the path key is
absent. -/
theorem c9_classed_mapping (kvs : List (String × JVal))
    (h : jsonHasKey kvs "class" = true) :
    (∀ p, List.lookup "path" kvs = some p → get_file_paths (.obj kvs) = .ok [p])
    ∧ (List.lookup "path" kvs = none → get_file_paths (.obj kvs) = .error .keyError) := by
  constructor
  · intro p hp
    unfold get_file_paths
    rw [if_pos h, hp]
  · intro hp
    unfold get_file_paths
    rw [if_pos h, hp]

/-- Witness for c9_classed_mapping: a classed record whose
secondaryFiles value nests another classed record yields only the outer
path (the nested record is invisible), and a classed record without a
path raises KeyError. -/
theorem c9_classed_mapping_witness :
    get_file_paths (.obj [("class", .str "File"), ("path", .str "/a.bam"),
        ("secondaryFiles", .arr [.obj [("class", .str "File"), ("path", .str "/b.bai")]])])
      = .ok [.str "/a.bam"]
    ∧ get_file_paths (.obj [("class", .str "File")]) = .error .keyError :=
  ⟨(c9_classed_mapping [("class", .str "File"), ("path", .str "/a.bam"),
        ("secondaryFiles", .arr [.obj [("class", .str "File"), ("path", .str "/b.bai")]])]
      rfl).1 (.str "/a.bam") rfl,
   (c9_classed_mapping [("class", .str "File")] rfl).2 rfl⟩

/-- Claim C3 (confirmed): generation is deterministic and idempotent.
Running create_cromwell_config a second time with the same RunArguments,
working directory and manifest, starting from the file state left by the
first run, returns the same result and leaves the same file state: the
scheduler default mapping is a per-call local rebuilt on every call, so
no mutation survives into the second call. -/
theorem c3_generation_deterministic (args : RunArgs) (wd : String) (j : JVal)
    (fs0 : Option String) :
    create_cromwell_config_fs args wd j (create_cromwell_config_fs args wd j fs0).1
      = create_cromwell_config_fs args wd j fs0 := by
  unfold create_cromwell_config_fs
  cases h : create_cromwell_config_text args wd j <;> simp [h]

/-- Claim C7 (confirmed): whenever generation fails with any error, the
output file state is exactly what it was before the call: the complete
text is assembled before the single write, so no partial file is ever
produced. -/
theorem c7_no_partial_write (args : RunArgs) (wd : String) (j : JVal)
    (fs0 : Option String) (e : CromErr)
    (herr : (create_cromwell_config_fs args wd j fs0).2 = .error e) :
    (create_cromwell_config_fs args wd j fs0).1 = fs0 := by
  unfold create_cromwell_config_fs at herr ⊢
  cases h : create_cromwell_config_text args wd j <;> rw [h] at herr <;> simp_all

/-- Witness for c7_no_partial_write: requesting the unsupported
scheduler foo fails and leaves the previous file content in place. -/
theorem c7_no_partial_write_witness :
    (create_cromwell_config_fs ⟨"foo", "q", [], 0, false, none⟩ "wd" manifestLocal
        (some "previous")).2 = .error .unsupportedScheduler
    ∧ (create_cromwell_config_fs ⟨"foo", "q", [], 0, false, none⟩ "wd" manifestLocal
        (some "previous")).1 = some "previous" :=
  ⟨rfl,
   c7_no_partial_write ⟨"foo", "q", [], 0, false, none⟩ "wd" manifestLocal
     (some "previous") .unsupportedScheduler rfl⟩

/-- Every successfully generated text is the top-level template rendered
with a std_args record built by buildStdArgs. -/
lemma create_text_ok_shape (args : RunArgs) (wd : String) (j : JVal) (t : String)
    (hok : create_cromwell_config_text args wd j = .ok t) :
    ∃ run_config file_types filesystem hpc,
      t = renderCromwellConfig (buildStdArgs args wd run_config file_types filesystem) hpc := by
  unfold create_cromwell_config_text at hok
  cases h1 : (match args.runconfig with
      | some rc => load_custom_config rc
      | none => (.ok [] : Except CromErr (List (String × String)))) with
  | error e => rw [h1] at hok; cases hok
  | ok run_config =>
  rw [h1] at hok
  simp only [] at hok
  cases h2 : get_filesystem_types args j with
  | error e => rw [h2] at hok; cases hok
  | ok file_types =>
  rw [h2] at hok
  simp only [] at hok
  cases h3 : get_filesystem_config file_types with
  | error e => rw [h3] at hok; cases hok
  | ok filesystem =>
  rw [h3] at hok
  simp only [] at hok
  cases h4 : args_to_cromwell args with
  | error e => rw [h4] at hok; cases hok
  | ok trip =>
  obtain ⟨cl, conf_args, scheduler⟩ := trip
  rw [h4] at hok
  simp only [] at hok
  by_cases h5 : scheduler = ""
  · rw [if_pos h5] at hok
    injection hok with hok
    subst hok
    exact ⟨run_config, file_types, filesystem, "", rfl⟩
  · rw [if_neg h5] at hok
    cases h6 : hpc_config scheduler
        (mergeStd conf_args (buildStdArgs args wd run_config file_types filesystem)) with
    | error e => rw [h6] at hok; cases hok
    | ok hpc =>
      rw [h6] at hok
      injection hok with hok
      subst hok
      exact ⟨run_config, file_types, filesystem, hpc, rfl⟩

lemma lookup_map_replace_self (d : List (String × String)) (k v : String)
    (hmem : d.any (fun p => p.1 == k) = true) :
    List.lookup k (d.map (fun p => if p.1 == k then (k, v) else p)) = some v := by
  induction d with
  | nil => simp at hmem
  | cons a rest ih =>
    obtain ⟨a1, a2⟩ := a
    simp only [List.any_cons, Bool.or_eq_true] at hmem
    simp only [List.map_cons]
    by_cases ha : (a1 == k) = true
    · rw [if_pos ha]
      simp [List.lookup]
    · rw [if_neg ha]
      have hka : (k == a1) = false := by
        rw [beq_eq_false_iff_ne]
        intro hk
        exact ha (by rw [beq_iff_eq]; exact hk.symm)
      simp only [List.lookup, hka]
      exact ih (hmem.resolve_left ha)

lemma lookup_append_self (d : List (String × String)) (k v : String)
    (hmem : d.any (fun p => p.1 == k) = false) :
    List.lookup k (d ++ [(k, v)]) = some v := by
  induction d with
  | nil => simp [List.lookup]
  | cons a rest ih =>
    obtain ⟨a1, a2⟩ := a
    rw [List.any_cons, Bool.or_eq_false_iff] at hmem
    have hka : (k == a1) = false := by
      rw [beq_eq_false_iff_ne]
      exact fun hk => (beq_eq_false_iff_ne.mp hmem.1) hk.symm
    rw [List.cons_append]
    simp only [List.lookup, hka]
    exact ih hmem.2

lemma lookup_dictSet_self (d : List (String × String)) (k v : String) :
    List.lookup k (dictSet d k v) = some v := by
  unfold dictSet
  split
  · exact lookup_map_replace_self d k v (by assumption)
  · next h => exact lookup_append_self d k v (Bool.eq_false_iff.mpr h)

lemma lookup_map_replace_other (d : List (String × String)) (k x v : String) (hne : k ≠ x) :
    List.lookup k (d.map (fun p => if p.1 == x then (x, v) else p)) = List.lookup k d := by
  induction d with
  | nil => rfl
  | cons a rest ih =>
    obtain ⟨a1, a2⟩ := a
    simp only [List.map_cons]
    by_cases ha : (a1 == x) = true
    · rw [if_pos ha]
      have ha' : a1 = x := beq_iff_eq.mp ha
      subst ha'
      have hka : (k == a1) = false := beq_eq_false_iff_ne.mpr hne
      simp only [List.lookup, hka]
      exact ih
    · rw [if_neg ha]
      simp only [List.lookup]
      cases hk : k == a1
      · exact ih
      · rfl

lemma lookup_append_other (d : List (String × String)) (k x v : String) (hne : k ≠ x) :
    List.lookup k (d ++ [(x, v)]) = List.lookup k d := by
  induction d with
  | nil => simp [List.lookup, beq_eq_false_iff_ne.mpr hne]
  | cons a rest ih =>
    obtain ⟨a1, a2⟩ := a
    rw [List.cons_append]
    simp only [List.lookup]
    cases hk : k == a1
    · exact ih
    · rfl

lemma lookup_dictSet_other (d : List (String × String)) (k x v : String) (hne : k ≠ x) :
    List.lookup k (dictSet d x v) = List.lookup k d := by
  unfold dictSet
  split
  · exact lookup_map_replace_other d k x v hne
  · exact lookup_append_other d k x v hne

/-- The merged parameter mapping handed to a scheduler template always
carries the joblimit value of the shared std_args record. -/
lemma mergeStd_joblimit (conf : List (String × String)) (sa : StdArgs) :
    List.lookup "joblimit" (mergeStd conf sa) = some sa.joblimit := by
  unfold mergeStd
  rw [lookup_dictSet_other _ _ _ _ (by decide),
      lookup_dictSet_other _ _ _ _ (by decide),
      lookup_dictSet_other _ _ _ _ (by decide),
      lookup_dictSet_other _ _ _ _ (by decide),
      lookup_dictSet_self]

/-- Claim C6 (confirmed): with a job limit of zero and no scheduler,
every successfully generated configuration text contains the directive
concurrent-job-limit = 1.  With a job limit of zero and a scheduler
selected, every successfully generated text renders an empty joblimit
slot: the std_args record substituted into the Local provider has an
empty joblimit field, and the merged mapping substituted into the
scheduler template maps joblimit to the empty string, so no
concurrent-job-limit directive is emitted anywhere; a concrete slurm
generation confirms the full text contains no such substring. -/
theorem c6_joblimit_directive (args : RunArgs) (wd : String) (j : JVal) (t : String)
    (h0 : args.joblimit = 0) (hs : args.scheduler = "")
    (hok : create_cromwell_config_text args wd j = .ok t) :
    (∃ a b, t = a ++ "concurrent-job-limit = 1" ++ b)
    ∧ (∀ (args2 : RunArgs) (wd2 : String) (j2 : JVal) (t2 : String),
        args2.joblimit = 0 → args2.scheduler ≠ "" →
        create_cromwell_config_text args2 wd2 j2 = .ok t2 →
        ∃ rc fts fs hpc,
          t2 = renderCromwellConfig (buildStdArgs args2 wd2 rc fts fs) hpc
          ∧ (buildStdArgs args2 wd2 rc fts fs).joblimit = ""
          ∧ ∀ conf, List.lookup "joblimit"
              (mergeStd conf (buildStdArgs args2 wd2 rc fts fs)) = some "")
    ∧ (∃ t2, create_cromwell_config_text ⟨"slurm", "default", [], 0, false, none⟩ "wd" manifestLocal
          = .ok t2
        ∧ hasInfixStr t2 "concurrent-job-limit" = false) := by
  obtain ⟨rc, fts, fs, hpc, rfl⟩ := create_text_ok_shape args wd j t hok
  have hjl : (buildStdArgs args wd rc fts fs).joblimit = "concurrent-job-limit = 1" := by
    unfold buildStdArgs
    rw [show effJoblimit args = 1 from by unfold effJoblimit; rw [if_pos ⟨h0, hs⟩]]
    rfl
  refine ⟨?_, ?_, ⟨_, rfl, by rfl⟩⟩
  · refine ⟨CROMWELL_HEAD ++ (buildStdArgs args wd rc fts fs).database ++ "\n\n"
        ++ (buildStdArgs args wd rc fts fs).engine ++ CROMWELL_LOCAL_OPEN,
      renderCromwellTail (buildStdArgs args wd rc fts fs) hpc, ?_⟩
    rw [renderCromwellConfig, hjl]
  · intro args2 wd2 j2 t2 h02 hs2 hok2
    obtain ⟨rc2, fts2, fs2, hpc2, rfl⟩ := create_text_ok_shape args2 wd2 j2 t2 hok2
    have hjl0 : (buildStdArgs args2 wd2 rc2 fts2 fs2).joblimit = "" := by
      unfold buildStdArgs
      rw [show effJoblimit args2 = args2.joblimit from by
            unfold effJoblimit
            rw [if_neg (by rintro ⟨-, h⟩; exact hs2 h)]]
      rw [h02]
      rfl
    exact ⟨rc2, fts2, fs2, hpc2, rfl, hjl0,
      fun conf => by rw [mergeStd_joblimit, hjl0]⟩

/-- Witness for c6_joblimit_directive on a concrete local run with job
limit zero over the single-local-file manifest. -/
theorem c6_joblimit_directive_witness :
    ∃ t, create_cromwell_config_text ⟨"", "", [], 0, false, none⟩ "wd" manifestLocal = .ok t
      ∧ ((∃ a b, t = a ++ "concurrent-job-limit = 1" ++ b)
         ∧ (∀ (args2 : RunArgs) (wd2 : String) (j2 : JVal) (t2 : String),
             args2.joblimit = 0 → args2.scheduler ≠ "" →
             create_cromwell_config_text args2 wd2 j2 = .ok t2 →
             ∃ rc fts fs hpc,
               t2 = renderCromwellConfig (buildStdArgs args2 wd2 rc fts fs) hpc
               ∧ (buildStdArgs args2 wd2 rc fts fs).joblimit = ""
               ∧ ∀ conf, List.lookup "joblimit"
                   (mergeStd conf (buildStdArgs args2 wd2 rc fts fs)) = some "")
         ∧ (∃ t2, create_cromwell_config_text ⟨"slurm", "default", [], 0, false, none⟩ "wd"
               manifestLocal = .ok t2
             ∧ hasInfixStr t2 "concurrent-job-limit" = false)) :=
  ⟨_, rfl, c6_joblimit_directive ⟨"", "", [], 0, false, none⟩ "wd" manifestLocal _ rfl rfl rfl⟩

lemma sorted_container_tags :
    List.Sorted (fun a b : String => a ≤ b)
      ["gcp_container", "http_container", "local_container"] := by
  have g1 : ("gcp_container" : String) ≤ "http_container" := by
    rw [String.le_iff_toList_le]; decide
  have g2 : ("gcp_container" : String) ≤ "local_container" := by
    rw [String.le_iff_toList_le]; decide
  have g3 : ("http_container" : String) ≤ "local_container" := by
    rw [String.le_iff_toList_le]; decide
  rw [List.sorted_cons, List.sorted_cons]
  refine ⟨?_, ?_, List.sorted_singleton _⟩
  · intro b hb
    rcases List.mem_cons.mp hb with rfl | hb
    · exact g1
    · rw [List.mem_singleton] at hb
      subst hb
      exact g2
  · intro b hb
    rw [List.mem_singleton] at hb
    subst hb
    exact g3

/-- Sorting a duplicate-free tag list drawn from the three container
tags is the same as filtering the sorted three-tag universe. -/
lemma sorted_dedup_eq_filter (d : List String) (hnd : d.Nodup)
    (hsub : ∀ x ∈ d, x ∈ ["gcp_container", "http_container", "local_container"]) :
    List.insertionSort (fun a b => a ≤ b) d
      = List.filter (fun x => decide (x ∈ d))
          ["gcp_container", "http_container", "local_container"] := by
  have hperm : (List.insertionSort (fun a b => a ≤ b) d).Perm
      (List.filter (fun x => decide (x ∈ d))
        ["gcp_container", "http_container", "local_container"]) := by
    refine (List.perm_insertionSort _ d).trans ?_
    rw [List.perm_ext_iff_of_nodup hnd (List.Nodup.filter _ (by decide))]
    intro a
    simp only [List.mem_filter, decide_eq_true_eq]
    exact ⟨fun ha => ⟨hsub a ha, ha⟩, fun h => h.2⟩
  exact List.eq_of_perm_of_sorted hperm (List.sorted_insertionSort _ d)
    (List.Pairwise.filter _ sorted_container_tags)

/-- Any fragment of a tag in the list occurs inside the concatenated
fragment body produced by fragmentsText. -/
lemma fragmentsText_contains (l : List String) :
    ∀ (body : String), fragmentsText l = .ok body →
      ∀ t f, t ∈ l → FILESYSTEM_CONFIG t = some f → ∃ a b, body = a ++ f ++ b := by
  induction l with
  | nil =>
    intro body h t f ht hf
    cases ht
  | cons x rest ih =>
    intro body h t f ht hf
    unfold fragmentsText at h
    cases hx : FILESYSTEM_CONFIG x with
    | none => rw [hx] at h; cases h
    | some fx =>
      rw [hx] at h
      cases hr : fragmentsText rest with
      | error e => rw [hr] at h; cases h
      | ok r =>
        rw [hr] at h
        injection h with h
        subst h
        rcases List.mem_cons.mp ht with rfl | ht
        · rw [hx] at hf
          injection hf with hf
          subst hf
          exact ⟨"", r, by rw [String.empty_append]⟩
        · obtain ⟨a, b, hab⟩ := ih r hr t f ht hf
          exact ⟨fx ++ a, b, by rw [hab]; simp [String.append_assoc]⟩

/-- Any fragment of a tag in the type list occurs inside the rendered
filesystems block. -/
lemma get_filesystem_config_contains (ts : List String) (cfg t f : String)
    (ht : t ∈ ts) (hf : FILESYSTEM_CONFIG t = some f)
    (hok : get_filesystem_config ts = .ok cfg) :
    ∃ a b, cfg = a ++ f ++ b := by
  unfold get_filesystem_config at hok
  cases hb : fragmentsText (List.insertionSort (fun a b => a ≤ b) ts.dedup) with
  | error e => rw [hb] at hok; cases hok
  | ok body =>
    rw [hb] at hok
    injection hok with hok
    subst hok
    have htm : t ∈ List.insertionSort (fun a b => a ≤ b) ts.dedup :=
      (List.perm_insertionSort _ _).mem_iff.mpr (List.mem_dedup.mpr ht)
    obtain ⟨a, b, hab⟩ := fragmentsText_contains _ body hb t f htm hf
    refine ⟨"     filesystems \x7b\n" ++ a, b ++ "      \x7d\n", ?_⟩
    rw [hab]
    simp [String.append_assoc]

/-- Claim C10 (confirmed): when containers are enabled and the manifest
yields the tag local_container, the emitted filesystems block carries
the local_container fragment, which is a gcs stanza with
duplication-strategy copy, and contains no local stanza at all; the
uncontainered tag local instead emits the local fragment, which uses
soft-link localization. -/
theorem c10_container_local_gcs (args : RunArgs) (j : JVal) (ts : List String)
    (hnc : args.no_container = false)
    (hok : get_filesystem_types args j = .ok ts)
    (hloc : "local_container" ∈ ts) :
    (∃ cfg, get_filesystem_config ts = .ok cfg
       ∧ (∃ a b, cfg = a ++ FILESYSTEM_LOCAL_CONTAINER ++ b)
       ∧ hasInfixStr FILESYSTEM_LOCAL_CONTAINER "duplication-strategy = \"copy\"" = true
       ∧ hasInfixStr cfg "local \x7b" = false)
    ∧ (∀ ts2 cfg2, "local" ∈ ts2 → get_filesystem_config ts2 = .ok cfg2 →
        ∃ a b, cfg2 = a ++ FILESYSTEM_LOCAL ++ b)
    ∧ hasInfixStr FILESYSTEM_LOCAL "localization: [\"soft-link\"]" = true := by
  refine ⟨?_, ?_, by rfl⟩
  · have hsub : ∀ x ∈ ts.dedup, x ∈ ["gcp_container", "http_container", "local_container"] := by
      intro x hx
      have h3 := get_filesystem_types_tags args j ts hok x (List.mem_dedup.mp hx)
      rw [hnc] at h3
      rcases h3 with rfl | rfl | rfl <;> decide
    have hl : "local_container" ∈ ts.dedup := List.mem_dedup.mpr hloc
    unfold get_filesystem_config
    rw [sorted_dedup_eq_filter ts.dedup (List.nodup_dedup ts) hsub]
    by_cases hg : "gcp_container" ∈ ts <;> by_cases hh : "http_container" ∈ ts
    · rw [show List.filter (fun x => decide (x ∈ ts.dedup))
            ["gcp_container", "http_container", "local_container"]
          = ["gcp_container", "http_container", "local_container"] from by simp [hg, hh, hloc]]
      refine ⟨_, rfl, ?_, by rfl, by rfl⟩
      exact ⟨"     filesystems \x7b\n" ++ FILESYSTEM_GCP_CONTAINER ++ FILESYSTEM_HTTP_CONTAINER,
        "" ++ "      \x7d\n", by simp [String.append_assoc]⟩
    · rw [show List.filter (fun x => decide (x ∈ ts.dedup))
            ["gcp_container", "http_container", "local_container"]
          = ["gcp_container", "local_container"] from by simp [hg, hh, hloc]]
      refine ⟨_, rfl, ?_, by rfl, by rfl⟩
      exact ⟨"     filesystems \x7b\n" ++ FILESYSTEM_GCP_CONTAINER,
        "" ++ "      \x7d\n", by simp [String.append_assoc]⟩
    · rw [show List.filter (fun x => decide (x ∈ ts.dedup))
            ["gcp_container", "http_container", "local_container"]
          = ["http_container", "local_container"] from by simp [hg, hh, hloc]]
      refine ⟨_, rfl, ?_, by rfl, by rfl⟩
      exact ⟨"     filesystems \x7b\n" ++ FILESYSTEM_HTTP_CONTAINER,
        "" ++ "      \x7d\n", by simp [String.append_assoc]⟩
    · rw [show List.filter (fun x => decide (x ∈ ts.dedup))
            ["gcp_container", "http_container", "local_container"]
          = ["local_container"] from by simp [hg, hh, hloc]]
      refine ⟨_, rfl, ?_, by rfl, by rfl⟩
      exact ⟨"     filesystems \x7b\n", "" ++ "      \x7d\n", by simp [String.append_assoc]⟩
  · intro ts2 cfg2 hmem hok2
    exact get_filesystem_config_contains ts2 cfg2 "local" FILESYSTEM_LOCAL hmem rfl hok2

/-- Witness for c10_container_local_gcs on the single-local-file
manifest with containers enabled. -/
theorem c10_container_local_gcs_witness :
    (∃ cfg, get_filesystem_config ["local_container"] = .ok cfg
       ∧ (∃ a b, cfg = a ++ FILESYSTEM_LOCAL_CONTAINER ++ b)
       ∧ hasInfixStr FILESYSTEM_LOCAL_CONTAINER "duplication-strategy = \"copy\"" = true
       ∧ hasInfixStr cfg "local \x7b" = false)
    ∧ (∀ ts2 cfg2, "local" ∈ ts2 → get_filesystem_config ts2 = .ok cfg2 →
        ∃ a b, cfg2 = a ++ FILESYSTEM_LOCAL ++ b)
    ∧ hasInfixStr FILESYSTEM_LOCAL "localization: [\"soft-link\"]" = true :=
  c10_container_local_gcs ⟨"", "", [], 0, false, none⟩ manifestLocal ["local_container"]
    rfl rfl (by decide)

end BcbioHpc
